import Mathlib

/-!
# Verification of the IP echo server (`net-utils/src/ip_echo_server.rs`)

A shallow embedding of the connection-handling logic of the IP echo server.
The server reads a fixed-length request frame (a zero header, a record of up
to four TCP and four UDP port numbers, and one terminus byte), probes the
peer's claimed ports (best-effort UDP datagrams, fail-fast sequential TCP
connects), and replies with the peer's observed IP address framed with the
same zero header.

Network effects are modelled by an explicit environment (`Env`) giving the
outcome of each primitive I/O operation, and the handler returns both its
`io::Result` and a trace of the observable network actions it performed
(UDP datagrams sent, TCP connects attempted, byte frames written back to
the peer).  An operation wrapped in the Rust `timeout(IO_TIMEOUT, ..)`
combinator turns a non-completing (`hang`) outcome into a timeout error;
an operation awaited bare lets `hang` suspend the whole handler forever,
which we model by the handler result `none`.
-/

/-- Maximum number of ports per direction in one request
(`MAX_PORT_COUNT_PER_MESSAGE` in the source). -/
def MAX_PORT_COUNT_PER_MESSAGE : Nat := 4

/-- Modelled from the spec: `HEADER_LENGTH` is imported from the crate root
and is not part of this file.  The spec fixes the header to the four zero
bytes (the "four zero bytes" trick, compared against the four-byte ASCII
literals "GET " and "POST"). -/
def HEADER_LENGTH : Nat := 4

/-- The request record: two fixed-capacity arrays of 16-bit port numbers
(`IpEchoServerMessage` in the source).  Arrays are modelled as lists of
naturals; well-formed records have both lists of length 4 with entries
below 2^16. -/
structure IpEchoServerMessage where
  tcp_ports : List Nat
  udp_ports : List Nat
deriving DecidableEq, Repr

/-- `IpEchoServerMessage::default()`: both arrays all zero. -/
def IpEchoServerMessage.default : IpEchoServerMessage :=
  { tcp_ports := List.replicate MAX_PORT_COUNT_PER_MESSAGE 0
    udp_ports := List.replicate MAX_PORT_COUNT_PER_MESSAGE 0 }

/-- Rust `dst[..src.len()].copy_from_slice(src)`: the source overwrites the
prefix of the destination, the rest of the destination is unchanged. -/
def copyIntoPrefix (dst src : List Nat) : List Nat :=
  src ++ dst.drop src.length

/-- `IpEchoServerMessage::new`: asserts that each supplied slice fits in the
fixed-size array (a failed assertion — a Rust panic — is modelled as `none`),
then copies each slice over the prefix of the corresponding all-zero default
array. -/
def IpEchoServerMessage.new (tcp_ports udp_ports : List Nat) :
    Option IpEchoServerMessage :=
  if tcp_ports.length ≤ IpEchoServerMessage.default.tcp_ports.length ∧
      udp_ports.length ≤ IpEchoServerMessage.default.udp_ports.length then
    some
      { tcp_ports := copyIntoPrefix IpEchoServerMessage.default.tcp_ports tcp_ports
        udp_ports := copyIntoPrefix IpEchoServerMessage.default.udp_ports udp_ports }
  else
    none

/-- bincode (fixed-int, little-endian) encoding of one `u16`: two bytes,
least significant first. -/
def u16ToBytesLE (v : Nat) : List Nat :=
  [v % 256, v / 256 % 256]

/-- bincode serialization of `IpEchoServerMessage`: the two `[u16; 4]` arrays
in declaration order, each element as two little-endian bytes, no length
prefix (fixed-size arrays). -/
def serializeMessage (m : IpEchoServerMessage) : List Nat :=
  (m.tcp_ports.map u16ToBytesLE).flatten ++ (m.udp_ports.map u16ToBytesLE).flatten

/-- Read one little-endian `u16` from the front of a byte list; fails on
fewer than two bytes. -/
def readU16LE : List Nat → Option (Nat × List Nat)
  | b0 :: b1 :: rest => some (b0 + 256 * b1, rest)
  | _ => none

/-- Read `n` consecutive little-endian `u16` values. -/
def readU16s : Nat → List Nat → Option (List Nat × List Nat)
  | 0, bytes => some ([], bytes)
  | n + 1, bytes =>
    match readU16LE bytes with
    | none => none
    | some (v, rest) =>
      match readU16s n rest with
      | none => none
      | some (vs, rest2) => some (v :: vs, rest2)

/-- `bincode::deserialize::<IpEchoServerMessage>`: reads the two four-element
`u16` arrays from the front of the input and ignores any trailing bytes
(bincode's `deserialize` does not require the input to be fully consumed). -/
def deserializeMessage (bytes : List Nat) : Option IpEchoServerMessage :=
  match readU16s MAX_PORT_COUNT_PER_MESSAGE bytes with
  | none => none
  | some (tcp, rest) =>
    match readU16s MAX_PORT_COUNT_PER_MESSAGE rest with
    | none => none
    | some (udp, _) => some { tcp_ports := tcp, udp_ports := udp }

/-- An IP address, v4 as four octets or v6 as sixteen octets. -/
inductive IpAddr where
  | v4 (a b c d : Nat)
  | v6 (octets : Fin 16 → Nat)

/-- The address family of an address. -/
inductive AddrFamily where
  | v4
  | v6
deriving DecidableEq, Repr

/-- Family of an `IpAddr`. -/
def IpAddr.family : IpAddr → AddrFamily
  | .v4 _ _ _ _ => .v4
  | .v6 _ => .v6

/-- bincode serialization of `std::net::IpAddr`: a little-endian `u32` enum
tag (0 for V4, 1 for V6) followed by the address octets. -/
def serializeIpAddr : IpAddr → List Nat
  | .v4 a b c d => [0, 0, 0, 0] ++ [a, b, c, d]
  | .v6 octets => [1, 0, 0, 0] ++ List.ofFn octets

/-- `ip_echo_server_request_length()`: header length plus the bincode
serialized size of the default (all-zero) record plus one terminus byte. -/
def ip_echo_server_request_length : Nat :=
  let REQUEST_TERMINUS_LENGTH : Nat := 1
  HEADER_LENGTH + (serializeMessage IpEchoServerMessage.default).length
    + REQUEST_TERMINUS_LENGTH

/-- Modelled from the spec: `ip_echo_server_reply_length` is imported from
the crate root and is not part of this file.  The spec defines it as header
length plus the serialized size of an IP address value, fixed per address
family. -/
def ip_echo_server_reply_length (ip : IpAddr) : Nat :=
  HEADER_LENGTH + (serializeIpAddr ip).length

/-- The success response frame: a zero-filled buffer of reply length with
the bincode-serialized peer address written in after the header — i.e. the
zero header followed by the serialized address. -/
def responseFrame (ip : IpAddr) : List Nat :=
  List.replicate HEADER_LENGTH 0 ++ serializeIpAddr ip

/-- ASCII bytes of a string literal, as the Rust code's byte-to-`char`
comparison sees them. -/
def asciiBytes (s : String) : List Nat :=
  s.toList.map Char.toNat

/-- The canned HTTP response sent to misdirected HTTP clients. -/
def HTTP_400_RESPONSE : String :=
  "HTTP/1.1 400 Bad Request\nContent-length: 0\n\n"

/-- Outcome of one primitive I/O operation: it completes with a value, it
completes with an error, or it never completes within any bound. -/
inductive OpRes (α : Type) where
  | ok (a : α)
  | err
  | hang
deriving DecidableEq, Repr

/-- The `io::Error` values the handler can return, abstracted to their
kind. -/
inductive IoError where
  | timeoutExpired
  | ioFailure
  | badRequestHeader (header : List Nat)
  | deserializeFailed
deriving DecidableEq, Repr

/-- The Rust `timeout(IO_TIMEOUT, op).await??` pattern: a completed value
passes through, a completed error becomes an I/O failure, and an operation
that would outlast the 5-second bound becomes a timeout error. -/
def withIoTimeout {α : Type} : OpRes α → Except IoError α
  | .ok a => .ok a
  | .err => .error .ioFailure
  | .hang => .error .timeoutExpired

/-- Environment of one connection: the peer's observed address and the
outcome of every primitive network operation the handler may perform. -/
structure Env where
  peerIp : IpAddr
  /-- Outcome of `read_exact` on the request buffer; on success, the bytes
  that filled the buffer (`read_exact` fills it completely). -/
  readRes : OpRes (List Nat)
  /-- Outcome of writing the canned HTTP 400 response. -/
  httpWriteRes : OpRes Unit
  /-- Whether binding the local ephemeral UDP socket succeeds. -/
  udpBindOk : Bool
  /-- Whether the UDP `send_to` aimed at a given peer port succeeds. -/
  udpSendOk : Nat → Bool
  /-- Outcome of the TCP connect aimed at a given peer port. -/
  tcpConnectRes : Nat → OpRes Unit
  /-- Outcome of `write_all` on the final response frame. -/
  writeRes : OpRes Unit

/-- Observable network actions of one handler run: UDP datagrams sent
(port with send outcome), TCP connects attempted (in order), and byte
frames successfully written back to the peer. -/
structure Trace where
  udpSends : List (Nat × Bool)
  tcpAttempts : List Nat
  frames : List (List Nat)
deriving DecidableEq, Repr

/-- The empty trace. -/
def Trace.empty : Trace := ⟨[], [], []⟩

/-- The UDP probing phase: if the local bind succeeds, one datagram is
aimed at each non-zero UDP port, in array order, each send's failure being
logged only; if the bind fails the phase is skipped entirely. -/
def udpProbePhase (env : Env) (m : IpEchoServerMessage) : List (Nat × Bool) :=
  if env.udpBindOk then
    (m.udp_ports.filter fun p => p ≠ 0).map fun p => (p, env.udpSendOk p)
  else
    []

/-- The TCP probing loop: for each non-zero port in array order, a connect
under `IO_TIMEOUT`; the first failure or timeout returns that error at once
and no later port is attempted.  Returns the loop's result and the list of
ports for which a connect was attempted. -/
def tcpProbeLoop (connectRes : Nat → OpRes Unit) :
    List Nat → Except IoError Unit × List Nat
  | [] => (.ok (), [])
  | p :: rest =>
    if p = 0 then tcpProbeLoop connectRes rest
    else
      match withIoTimeout (connectRes p) with
      | .error e => (.error e, [p])
      | .ok _ =>
        let r := tcpProbeLoop connectRes rest
        (r.1, p :: r.2)

/-- Everything after a successful header check and deserialization: UDP
probing (never fatal), TCP probing (fail-fast), then the final
`write_all` of the response frame — awaited bare, with no timeout
combinator around it, so a write that never completes suspends the handler
forever (result `none`). -/
def probeAndRespond (env : Env) (m : IpEchoServerMessage) :
    Option (Except IoError Unit) × Trace :=
  let udpSends := udpProbePhase env m
  match tcpProbeLoop env.tcpConnectRes m.tcp_ports with
  | (.error e, attempts) => (some (.error e), ⟨udpSends, attempts, []⟩)
  | (.ok _, attempts) =>
    match env.writeRes with
    | .hang => (none, ⟨udpSends, attempts, []⟩)
    | .err => (some (.error .ioFailure), ⟨udpSends, attempts, []⟩)
    | .ok _ =>
      (some (.ok ()), ⟨udpSends, attempts, [responseFrame env.peerIp]⟩)

/-- `process_connection`: read exactly `ip_echo_server_request_length`
bytes under `IO_TIMEOUT`; check the header (zero marker, else HTTP 400 for
"GET "/"POST", else a descriptive error); deserialize the port record from
the bytes after the header; then probe and respond.  Returns `none` when
the handler suspends forever, otherwise `some` of its `io::Result`, along
with the trace of network actions. -/
def processConnection (env : Env) : Option (Except IoError Unit) × Trace :=
  match withIoTimeout env.readRes with
  | .error e => (some (.error e), Trace.empty)
  | .ok data =>
    let header := data.take HEADER_LENGTH
    if header ≠ List.replicate HEADER_LENGTH 0 then
      if header = asciiBytes "GET " ∨ header = asciiBytes "POST" then
        match withIoTimeout env.httpWriteRes with
        | .error e => (some (.error e), Trace.empty)
        | .ok _ => (some (.ok ()), ⟨[], [], [asciiBytes HTTP_400_RESPONSE]⟩)
      else
        (some (.error (.badRequestHeader header)), Trace.empty)
    else
      match deserializeMessage (data.drop HEADER_LENGTH) with
      | none => (some (.error .deserializeFailed), Trace.empty)
      | some msg => probeAndRespond env msg

/-! ## Concrete environments used by the witness theorems -/

/-- A well-formed request frame with all-zero port lists. -/
def reqAllZero : List Nat := List.replicate 21 0

/-- A well-formed request frame with `tcp_ports = [9, 0, 0, 0]` and all-zero
UDP ports. -/
def reqTcp9 : List Nat :=
  [0, 0, 0, 0] ++ [9, 0] ++ List.replicate 6 0 ++ List.replicate 8 0 ++ [0]

/-- A well-formed request frame with `udp_ports = [7, 0, 0, 0]` and all-zero
TCP ports. -/
def reqUdp7 : List Nat :=
  [0, 0, 0, 0] ++ List.replicate 8 0 ++ [7, 0] ++ List.replicate 6 0 ++ [0]

/-- A baseline environment: IPv4 peer, every operation succeeds. -/
def envBase : Env :=
  { peerIp := .v4 10 20 30 40
    readRes := .ok reqAllZero
    httpWriteRes := .ok ()
    udpBindOk := true
    udpSendOk := fun _ => true
    tcpConnectRes := fun _ => .ok ()
    writeRes := .ok () }

/-! ## Helper lemmas -/

/-- When every non-zero port connects successfully, the TCP loop succeeds
and attempts exactly the non-zero ports in order. -/
theorem tcpProbeLoop_all_ok (c : Nat → OpRes Unit) :
    ∀ l : List Nat, (∀ q ∈ l, q ≠ 0 → c q = .ok ()) →
      tcpProbeLoop c l = (.ok (), l.filter fun p => p ≠ 0) := by
  intro l
  induction l with
  | nil => intro _; rfl
  | cons p rest ih =>
    intro h
    have hrest := ih fun q hq hq0 => h q (List.mem_cons_of_mem _ hq) hq0
    by_cases hp : p = 0
    · subst hp
      simp [tcpProbeLoop, hrest]
    · have hc : c p = .ok () := h p (List.mem_cons_self p rest) hp
      simp [tcpProbeLoop, hp, hc, withIoTimeout, hrest]

/-- A prefix of successfully connecting ports passes through the TCP loop,
prepending its non-zero ports to the attempts of the remainder. -/
theorem tcpProbeLoop_append_ok (c : Nat → OpRes Unit) :
    ∀ pre rest : List Nat, (∀ q ∈ pre, q ≠ 0 → c q = .ok ()) →
      tcpProbeLoop c (pre ++ rest) =
        ((tcpProbeLoop c rest).1,
          (pre.filter fun p => p ≠ 0) ++ (tcpProbeLoop c rest).2) := by
  intro pre
  induction pre with
  | nil => intro rest _; rfl
  | cons p pre ih =>
    intro rest h
    have hpre := ih rest fun q hq hq0 => h q (List.mem_cons_of_mem _ hq) hq0
    by_cases hp : p = 0
    · subst hp
      simp [tcpProbeLoop, hpre]
    · have hc : c p = .ok () := h p (List.mem_cons_self p pre) hp
      simp [tcpProbeLoop, hp, hc, withIoTimeout, hpre]

/-- A non-zero port whose connect fails or times out stops the TCP loop at
once with an error: it is the last attempted port, later ports are never
tried. -/
theorem tcpProbeLoop_head_fails (c : Nat → OpRes Unit) (p : Nat)
    (rest : List Nat) (hp : p ≠ 0) (hc : c p ≠ .ok ()) :
    ∃ e : IoError, tcpProbeLoop c (p :: rest) = (.error e, [p]) := by
  cases hcp : c p with
  | ok a => cases a; exact absurd hcp hc
  | err => exact ⟨.ioFailure, by simp [tcpProbeLoop, hp, hcp, withIoTimeout]⟩
  | hang => exact ⟨.timeoutExpired, by simp [tcpProbeLoop, hp, hcp, withIoTimeout]⟩

/-- On a successful read of a zero-headed, deserializable frame, the
handler proceeds to the probe-and-respond phase for the decoded record. -/
theorem processConnection_valid (env : Env) (data : List Nat)
    (msg : IpEchoServerMessage) (hr : env.readRes = .ok data)
    (hh : data.take HEADER_LENGTH = List.replicate HEADER_LENGTH 0)
    (hd : deserializeMessage (data.drop HEADER_LENGTH) = some msg) :
    processConnection env = probeAndRespond env msg := by
  unfold processConnection
  rw [hr]
  simp [withIoTimeout, hh, hd]

/-- Environment for a request with `tcp_ports = [9, 0, 0, 0]` where every
TCP connect fails. -/
def envTcpFail : Env :=
  { envBase with readRes := .ok reqTcp9, tcpConnectRes := fun _ => .err }

/-- Environment for a request with `udp_ports = [7, 0, 0, 0]` where the
local UDP bind fails. -/
def envUdpFail : Env :=
  { envBase with readRes := .ok reqUdp7, udpBindOk := false }

/-! ## Claims -/

/-- C1: if the request's TCP port list has a first non-zero port whose
connect fails or times out (all earlier non-zero ports connecting fine),
the handler returns an I/O failure, no response frame is written back, and
the failing port is the last TCP connect attempted (nothing after it is
probed). -/
theorem tcp_probe_failure_aborts_request (env : Env) (data : List Nat)
    (msg : IpEchoServerMessage) (pre post : List Nat) (p : Nat)
    (hr : env.readRes = .ok data)
    (hh : data.take HEADER_LENGTH = List.replicate HEADER_LENGTH 0)
    (hd : deserializeMessage (data.drop HEADER_LENGTH) = some msg)
    (hsplit : msg.tcp_ports = pre ++ p :: post)
    (hpre : ∀ q ∈ pre, q ≠ 0 → env.tcpConnectRes q = .ok ())
    (hp : p ≠ 0) (hfail : env.tcpConnectRes p ≠ .ok ()) :
    ∃ e : IoError,
      (processConnection env).1 = some (.error e) ∧
      (processConnection env).2.tcpAttempts =
        (pre.filter fun q => q ≠ 0) ++ [p] ∧
      (processConnection env).2.frames = [] := by
  obtain ⟨e, he⟩ := tcpProbeLoop_head_fails env.tcpConnectRes p post hp hfail
  have hloop := tcpProbeLoop_append_ok env.tcpConnectRes pre (p :: post) hpre
  rw [he] at hloop
  have hpc := processConnection_valid env data msg hr hh hd
  refine ⟨e, ?_, ?_, ?_⟩ <;> rw [hpc] <;>
    simp [probeAndRespond, hsplit, hloop]

/-- Witness for C1: request `tcp_ports = [9, 0, 0, 0]`, the connect to
port 9 fails. -/
theorem tcp_probe_failure_aborts_request_witness :
    ∃ e : IoError,
      (processConnection envTcpFail).1 = some (.error e) ∧
      (processConnection envTcpFail).2.tcpAttempts = [9] ∧
      (processConnection envTcpFail).2.frames = [] :=
  tcp_probe_failure_aborts_request envTcpFail reqTcp9
    ⟨[9, 0, 0, 0], [0, 0, 0, 0]⟩ [] [0, 0, 0] 9 rfl (by decide) (by decide)
    rfl (by simp) (by decide) (by decide)

/-- C2: UDP failures never propagate — for every valid request whose TCP
probes and final write succeed, the handler returns `Ok` and writes the
response frame, whatever the outcome of the local UDP bind and of each UDP
send (those fields of the environment are unconstrained). -/
theorem udp_failures_never_propagate (env : Env) (data : List Nat)
    (msg : IpEchoServerMessage)
    (hr : env.readRes = .ok data)
    (hh : data.take HEADER_LENGTH = List.replicate HEADER_LENGTH 0)
    (hd : deserializeMessage (data.drop HEADER_LENGTH) = some msg)
    (htcp : ∀ q ∈ msg.tcp_ports, q ≠ 0 → env.tcpConnectRes q = .ok ())
    (hw : env.writeRes = .ok ()) :
    (processConnection env).1 = some (.ok ()) ∧
    (processConnection env).2.frames = [responseFrame env.peerIp] := by
  have hloop := tcpProbeLoop_all_ok env.tcpConnectRes msg.tcp_ports htcp
  have hpc := processConnection_valid env data msg hr hh hd
  rw [hpc]
  simp [probeAndRespond, hloop, hw]

/-- Witness for C2: request `udp_ports = [7, 0, 0, 0]` with the local UDP
bind failing; the request still completes and the response frame is
written. -/
theorem udp_failures_never_propagate_witness :
    (processConnection envUdpFail).1 = some (.ok ()) ∧
    (processConnection envUdpFail).2.frames =
      [responseFrame envUdpFail.peerIp] :=
  udp_failures_never_propagate envUdpFail reqUdp7
    ⟨[0, 0, 0, 0], [7, 0, 0, 0]⟩ rfl (by decide) (by decide) (by decide) rfl

/-- C9: a correctly framed request whose port lists are all zeros causes
zero UDP sends and zero TCP connect attempts, and the handler immediately
writes the response frame (header followed by the peer's IP), whatever the
reachability of anything on the peer (the probe outcomes in the
environment are unconstrained). -/
theorem all_zero_ports_no_probes (env : Env) (data : List Nat)
    (hr : env.readRes = .ok data)
    (hh : data.take HEADER_LENGTH = List.replicate HEADER_LENGTH 0)
    (hd : deserializeMessage (data.drop HEADER_LENGTH) =
      some IpEchoServerMessage.default)
    (hw : env.writeRes = .ok ()) :
    processConnection env =
      (some (.ok ()), ⟨[], [], [responseFrame env.peerIp]⟩) := by
  have hpc := processConnection_valid env data _ hr hh hd
  rw [hpc]
  simp [probeAndRespond, udpProbePhase, IpEchoServerMessage.default,
    MAX_PORT_COUNT_PER_MESSAGE, tcpProbeLoop, hw]

/-- Witness for C9: the all-zero request against a peer where every probe
outcome is left at its default. -/
theorem all_zero_ports_no_probes_witness :
    processConnection envBase =
      (some (.ok ()), ⟨[], [], [responseFrame envBase.peerIp]⟩) :=
  all_zero_ports_no_probes envBase reqAllZero rfl (by decide) (by decide) rfl

/-- Environment for a valid all-zero request where the final response
write never completes. -/
def envWriteHang : Env := { envBase with writeRes := .hang }

/-- Environment for a valid all-zero request where the final response
write completes with an error. -/
def envWriteErr : Env := { envBase with writeRes := .err }

/-- The serialized size of an IP address is fixed per address family:
8 bytes for v4 (tag + 4 octets), 20 bytes for v6 (tag + 16 octets). -/
theorem serializeIpAddr_length (ip : IpAddr) :
    (serializeIpAddr ip).length =
      match ip.family with
      | .v4 => 8
      | .v6 => 20 := by
  cases ip <;> simp [serializeIpAddr, IpAddr.family]

/-- Counterexample to C3: with every step of a valid all-zero request
succeeding but the final `write_all` never completing, the handler never
returns at all (`none`) — the final write is not wrapped in
`timeout(IO_TIMEOUT, ..)`, so a write timeout does not abort the handler
with a hard failure as the claim states. -/
theorem final_write_hang_suspends_cex :
    envWriteHang.writeRes = OpRes.hang ∧
    (processConnection envWriteHang).1 = none := by
  exact ⟨rfl, rfl⟩

/-- C3 amended: the final response write is awaited bare, outside any
`IO_TIMEOUT` wrapper.  On a valid request whose probes succeed, a write
that completes with an error aborts the handler with a hard I/O failure
and no frame is recorded as written, but a write that never completes
suspends the handler indefinitely instead of aborting with a timeout
error. -/
theorem final_write_not_under_io_timeout (env : Env) (data : List Nat)
    (msg : IpEchoServerMessage)
    (hr : env.readRes = .ok data)
    (hh : data.take HEADER_LENGTH = List.replicate HEADER_LENGTH 0)
    (hd : deserializeMessage (data.drop HEADER_LENGTH) = some msg)
    (htcp : ∀ q ∈ msg.tcp_ports, q ≠ 0 → env.tcpConnectRes q = .ok ()) :
    (env.writeRes = .err →
      (processConnection env).1 = some (.error .ioFailure) ∧
      (processConnection env).2.frames = []) ∧
    (env.writeRes = .hang →
      (processConnection env).1 = none ∧
      (processConnection env).2.frames = []) := by
  have hloop := tcpProbeLoop_all_ok env.tcpConnectRes msg.tcp_ports htcp
  have hpc := processConnection_valid env data msg hr hh hd
  constructor <;> intro hw <;> rw [hpc] <;>
    simp [probeAndRespond, hloop, hw]

/-- Witness for the amended C3: the all-zero request with a hanging final
write. -/
theorem final_write_not_under_io_timeout_witness :
    (envWriteHang.writeRes = .err →
      (processConnection envWriteHang).1 = some (.error .ioFailure) ∧
      (processConnection envWriteHang).2.frames = []) ∧
    (envWriteHang.writeRes = .hang →
      (processConnection envWriteHang).1 = none ∧
      (processConnection envWriteHang).2.frames = []) :=
  final_write_not_under_io_timeout envWriteHang reqAllZero
    IpEchoServerMessage.default rfl (by decide) (by decide) (by decide)

/-- C4: the request buffer has exactly `ip_echo_server_request_length`
bytes (`read_exact` fills it completely), and on the success path the
bytes written back form exactly one frame of
`ip_echo_server_reply_length` bytes — a length determined solely by the
peer address's family, equal within a family and different between IPv4
and IPv6. -/
theorem request_reply_lengths_fixed (env : Env) (data : List Nat)
    (msg : IpEchoServerMessage)
    (hr : env.readRes = .ok data)
    (_hlen : data.length = ip_echo_server_request_length)
    (hh : data.take HEADER_LENGTH = List.replicate HEADER_LENGTH 0)
    (hd : deserializeMessage (data.drop HEADER_LENGTH) = some msg)
    (htcp : ∀ q ∈ msg.tcp_ports, q ≠ 0 → env.tcpConnectRes q = .ok ())
    (hw : env.writeRes = .ok ()) :
    (processConnection env).2.frames = [responseFrame env.peerIp] ∧
    (responseFrame env.peerIp).length =
      ip_echo_server_reply_length env.peerIp ∧
    (∀ ip1 ip2 : IpAddr, ip1.family = ip2.family →
      ip_echo_server_reply_length ip1 = ip_echo_server_reply_length ip2) ∧
    (∀ ip1 ip2 : IpAddr, ip1.family ≠ ip2.family →
      ip_echo_server_reply_length ip1 ≠ ip_echo_server_reply_length ip2) := by
  refine ⟨(udp_failures_never_propagate env data msg hr hh hd htcp hw).2,
    ?_, ?_, ?_⟩
  · simp [responseFrame, ip_echo_server_reply_length]
  · intro ip1 ip2 hfam
    simp [ip_echo_server_reply_length, serializeIpAddr_length, hfam]
  · intro ip1 ip2 hfam
    cases h1 : ip1.family <;> cases h2 : ip2.family <;>
      simp [h1, h2] at hfam ⊢ <;>
      simp [ip_echo_server_reply_length, serializeIpAddr_length, h1, h2,
        HEADER_LENGTH]

/-- Witness for C4: the all-zero request from an IPv4 peer with every
operation succeeding. -/
theorem request_reply_lengths_fixed_witness :
    (processConnection envBase).2.frames = [responseFrame envBase.peerIp] ∧
    (responseFrame envBase.peerIp).length =
      ip_echo_server_reply_length envBase.peerIp ∧
    (∀ ip1 ip2 : IpAddr, ip1.family = ip2.family →
      ip_echo_server_reply_length ip1 = ip_echo_server_reply_length ip2) ∧
    (∀ ip1 ip2 : IpAddr, ip1.family ≠ ip2.family →
      ip_echo_server_reply_length ip1 ≠ ip_echo_server_reply_length ip2) :=
  request_reply_lengths_fixed envBase reqAllZero IpEchoServerMessage.default
    rfl (by decide) (by decide) (by decide) (by decide) rfl

/-- Reading `n` little-endian `u16` values from a `2 * n`-byte block
consumes exactly that block, whatever follows it: the decoded values do
not depend on the suffix, which is returned untouched. -/
theorem readU16s_exact (n : Nat) :
    ∀ bytes : List Nat, bytes.length = 2 * n →
      ∃ vs : List Nat, ∀ suffix : List Nat,
        readU16s n (bytes ++ suffix) = some (vs, suffix) := by
  induction n with
  | zero =>
    intro bytes h
    have hb : bytes = [] := List.eq_nil_of_length_eq_zero h
    exact ⟨[], fun suffix => by simp [hb, readU16s]⟩
  | succ n ih =>
    intro bytes h
    cases bytes with
    | nil => simp only [List.length_nil] at h; omega
    | cons b0 tail =>
      cases tail with
      | nil => simp only [List.length_cons, List.length_nil] at h; omega
      | cons b1 rest =>
        have hr : rest.length = 2 * n := by
          simp only [List.length_cons] at h; omega
        obtain ⟨vs, hvs⟩ := ih rest hr
        refine ⟨(b0 + 256 * b1) :: vs, fun suffix => ?_⟩
        simp [readU16s, readU16LE, hvs suffix]

/-- C5: the port-list record is decoded from exactly the 16 bytes that
sit between the header and the terminus byte — appending the terminus
byte to the deserializer's input (as `&data[HEADER_LENGTH..]` does)
changes nothing: the decoded record equals the one obtained from the 16
core bytes alone, whatever the terminus byte holds. -/
theorem deserialize_ignores_terminus (core : List Nat) (t : Nat)
    (hlen : core.length = 16) :
    deserializeMessage (core ++ [t]) = deserializeMessage core := by
  obtain ⟨tcp, htcp⟩ := readU16s_exact 4 (core.take 8)
    (by simp [List.length_take, hlen])
  obtain ⟨udp, hudp⟩ := readU16s_exact 4 (core.drop 8)
    (by simp [List.length_drop, hlen])
  have h1 : core = core.take 8 ++ core.drop 8 :=
    (List.take_append_drop 8 core).symm
  have e1 : readU16s 4 (core ++ [t]) = some (tcp, core.drop 8 ++ [t]) := by
    conv_lhs => rw [h1, List.append_assoc]
    exact htcp (core.drop 8 ++ [t])
  have e2 : readU16s 4 core = some (tcp, core.drop 8) := by
    conv_lhs => rw [h1]
    exact htcp (core.drop 8)
  have e3 : readU16s 4 (core.drop 8 ++ [t]) = some (udp, [t]) := hudp [t]
  have e4 : readU16s 4 (core.drop 8) = some (udp, []) := by
    simpa using hudp []
  simp [deserializeMessage, MAX_PORT_COUNT_PER_MESSAGE, e1, e2, e3, e4]

/-- Witness for C5: a 16-byte core encoding `tcp_ports = [9, 0, 0, 0]`,
with terminus byte 5. -/
theorem deserialize_ignores_terminus_witness :
    deserializeMessage (([9, 0] ++ List.replicate 14 0) ++ [5]) =
      deserializeMessage ([9, 0] ++ List.replicate 14 0) :=
  deserialize_ignores_terminus ([9, 0] ++ List.replicate 14 0) 5 (by decide)

/-- Environment whose peer sent an HTTP GET line instead of a protocol
request. -/
def envHttpGet : Env :=
  { envBase with readRes := .ok (asciiBytes "GET " ++ List.replicate 17 0) }

/-- Environment whose peer sent a header that is neither the zero marker
nor an HTTP method. -/
def envBadHeader : Env :=
  { envBase with readRes := .ok (asciiBytes "ABCD" ++ List.replicate 17 0) }

/-- The byte length of a serialized record is twice the number of port
slots in each array: two bytes per `u16`, no overhead. -/
theorem serializeMessage_length (m : IpEchoServerMessage) :
    (serializeMessage m).length =
      2 * m.tcp_ports.length + 2 * m.udp_ports.length := by
  have key : ∀ l : List Nat, ((l.map u16ToBytesLE).flatten).length = 2 * l.length := by
    intro l
    induction l with
    | nil => rfl
    | cons x xs ih =>
      simp only [List.map_cons, List.flatten_cons, List.length_append, ih,
        u16ToBytesLE, List.length_cons, List.length_nil]
      omega
  simp [serializeMessage, key]

/-- C6: a request whose first four bytes spell "GET " or "POST" gets back
exactly the literal HTTP 400 response and nothing else, no probing
happens, and the handler returns `Ok`. -/
theorem http_request_gets_400 (env : Env) (data : List Nat)
    (hh : data.take HEADER_LENGTH = asciiBytes "GET " ∨
      data.take HEADER_LENGTH = asciiBytes "POST")
    (hr : env.readRes = .ok data)
    (hw : env.httpWriteRes = .ok ()) :
    processConnection env =
      (some (.ok ()), ⟨[], [], [asciiBytes HTTP_400_RESPONSE]⟩) := by
  rcases hh with h | h <;>
    (unfold processConnection; rw [hr, hw]; simp only [withIoTimeout];
      rw [h]; rfl)

/-- Witness for C6: a read beginning with the ASCII bytes of "GET ". -/
theorem http_request_gets_400_witness :
    processConnection envHttpGet =
      (some (.ok ()), ⟨[], [], [asciiBytes HTTP_400_RESPONSE]⟩) :=
  http_request_gets_400 envHttpGet (asciiBytes "GET " ++ List.replicate 17 0)
    (Or.inl (by decide)) rfl rfl

/-- C7: a request whose header is neither the zero marker nor "GET " nor
"POST" makes the handler return a descriptive error naming the bad header,
with no probing and zero bytes written back to the peer. -/
theorem bad_header_no_reply (env : Env) (data : List Nat)
    (hr : env.readRes = .ok data)
    (hz : data.take HEADER_LENGTH ≠ List.replicate HEADER_LENGTH 0)
    (hg : data.take HEADER_LENGTH ≠ asciiBytes "GET ")
    (hp : data.take HEADER_LENGTH ≠ asciiBytes "POST") :
    processConnection env =
      (some (.error (.badRequestHeader (data.take HEADER_LENGTH))),
        Trace.empty) := by
  unfold processConnection
  rw [hr]
  simp [withIoTimeout, hz, hg, hp]

/-- Witness for C7: a read beginning with the ASCII bytes of "ABCD". -/
theorem bad_header_no_reply_witness :
    processConnection envBadHeader =
      (some (.error (.badRequestHeader (asciiBytes "ABCD"))), Trace.empty) :=
  bad_header_no_reply envBadHeader (asciiBytes "ABCD" ++ List.replicate 17 0)
    rfl (by decide) (by decide) (by decide)

/-- C8: `ip_echo_server_request_length` is the header length plus the
serialized size of the default record plus one terminus byte, the
serialized size of any well-formed record equals that of the default one
(so the request length never depends on the port values carried), and the
reply length depends only on the peer's address family, never on message
content. -/
theorem framing_lengths_constant (msg : IpEchoServerMessage)
    (ip1 ip2 : IpAddr)
    (h1 : msg.tcp_ports.length = MAX_PORT_COUNT_PER_MESSAGE)
    (h2 : msg.udp_ports.length = MAX_PORT_COUNT_PER_MESSAGE)
    (hfam : ip1.family = ip2.family) :
    ip_echo_server_request_length =
      HEADER_LENGTH + (serializeMessage IpEchoServerMessage.default).length
        + 1 ∧
    (serializeMessage msg).length =
      (serializeMessage IpEchoServerMessage.default).length ∧
    ip_echo_server_reply_length ip1 = ip_echo_server_reply_length ip2 := by
  refine ⟨rfl, ?_, ?_⟩
  · simp [serializeMessage_length, h1, h2, IpEchoServerMessage.default]
  · simp [ip_echo_server_reply_length, serializeIpAddr_length, hfam]

/-- Witness for C8: a record carrying non-zero ports against the default
record, and two distinct IPv4 peers. -/
theorem framing_lengths_constant_witness :
    ip_echo_server_request_length =
      HEADER_LENGTH + (serializeMessage IpEchoServerMessage.default).length
        + 1 ∧
    (serializeMessage ⟨[5, 6, 7, 8], [1, 2, 3, 4]⟩).length =
      (serializeMessage IpEchoServerMessage.default).length ∧
    ip_echo_server_reply_length (.v4 1 2 3 4) =
      ip_echo_server_reply_length (.v4 9 9 9 9) :=
  framing_lengths_constant ⟨[5, 6, 7, 8], [1, 2, 3, 4]⟩ (.v4 1 2 3 4)
    (.v4 9 9 9 9) (by decide) (by decide) rfl

/-- C10: `IpEchoServerMessage::new` panics (modelled as `none`) exactly
when a supplied slice has more than `MAX_PORT_COUNT_PER_MESSAGE` entries;
otherwise the result places each slice at the front of its array in
order, with every remaining slot zero. -/
theorem new_pads_with_zeros (tcp udp : List Nat) :
    (MAX_PORT_COUNT_PER_MESSAGE < tcp.length ∨
        MAX_PORT_COUNT_PER_MESSAGE < udp.length →
      IpEchoServerMessage.new tcp udp = none) ∧
    (tcp.length ≤ MAX_PORT_COUNT_PER_MESSAGE →
      udp.length ≤ MAX_PORT_COUNT_PER_MESSAGE →
      IpEchoServerMessage.new tcp udp =
        some
          { tcp_ports :=
              tcp ++ List.replicate (MAX_PORT_COUNT_PER_MESSAGE - tcp.length) 0
            udp_ports :=
              udp ++ List.replicate (MAX_PORT_COUNT_PER_MESSAGE - udp.length) 0 }) := by
  constructor
  · intro h
    have hno : ¬(tcp.length ≤ IpEchoServerMessage.default.tcp_ports.length ∧
        udp.length ≤ IpEchoServerMessage.default.udp_ports.length) := by
      simp only [IpEchoServerMessage.default, List.length_replicate,
        MAX_PORT_COUNT_PER_MESSAGE] at h ⊢
      omega
    simp [IpEchoServerMessage.new, hno]
  · intro h1 h2
    have hyes : tcp.length ≤ IpEchoServerMessage.default.tcp_ports.length ∧
        udp.length ≤ IpEchoServerMessage.default.udp_ports.length := by
      constructor
      · simpa [IpEchoServerMessage.default] using h1
      · simpa [IpEchoServerMessage.default] using h2
    simp [IpEchoServerMessage.new, hyes, copyIntoPrefix,
      IpEchoServerMessage.default, List.drop_replicate]
    exact ⟨h1, h2⟩

/-- Witness for C10: a five-element TCP slice panics; slices `[1, 2]` and
`[3]` land at the front of their arrays with zero padding. -/
theorem new_pads_with_zeros_witness :
    IpEchoServerMessage.new [1, 2, 3, 4, 5] [] = none ∧
    IpEchoServerMessage.new [1, 2] [3] =
      some { tcp_ports := [1, 2, 0, 0], udp_ports := [3, 0, 0, 0] } :=
  ⟨(new_pads_with_zeros [1, 2, 3, 4, 5] []).1 (Or.inl (by decide)),
    (new_pads_with_zeros [1, 2] [3]).2 (by decide) (by decide)⟩
